import Mathlib

/-!
Shallow embedding of `src/index.js` (a small Express service brokering
DID/verifiable-credential operations through the Web5 SDK) and proofs of the
frozen claims about it.

Conventions of the embedding:
* The local key-value store (`node-localstorage`) is an association list
  `Store`; `getItem` returns `Option String` (`none` models JS `null`).
* JavaScript values that the claims inspect are modelled by `JsVal`;
  thrown JavaScript exceptions by `JsErr` inside `Except`.
* External SDK / network calls are oracles carried in environment records:
  each call site is a field holding its outcome (`Except JsErr _`), applied
  to the arguments the source actually passes.
* `new Date()` / `setDate` / `toISOString` are modelled over civil dates with
  the standard days-from-civil algorithm (the timezone is taken to be UTC,
  matching `toISOString`; ECMAScript `MakeDay(y, m, dt)` is the day number of
  the first of the month plus `dt - 1`).
-/

/-! ## Calendar arithmetic (`getExpirationDate`, src/index.js lines 33-37) -/

/-- Civil date to days since 1970-01-01 (standard era-based algorithm, with
truncating integer division exactly as in the reference implementation). -/
def daysFromCivil (y m d : Int) : Int :=
  let y1 := y - (if m ≤ 2 then 1 else 0)
  let era := (if 0 ≤ y1 then y1 else y1 - 399) / 400
  let yoe := y1 - era * 400
  let mp := if 2 < m then m - 3 else m + 9
  let doy := (153 * mp + 2) / 5 + d - 1
  let doe := yoe * 365 + yoe / 4 - yoe / 100 + doy
  era * 146097 + doe - 719468

/-- Days since 1970-01-01 back to a civil date `(year, month, day)`. -/
def civilFromDays (z : Int) : Int × Int × Int :=
  let z1 := z + 719468
  let era := (if 0 ≤ z1 then z1 else z1 - 146096) / 146097
  let doe := z1 - era * 146097
  let yoe := (doe - doe / 1460 + doe / 36524 - doe / 146096) / 365
  let y := yoe + era * 400
  let doy := doe - (365 * yoe + yoe / 4 - yoe / 100)
  let mp := (5 * doy + 2) / 153
  let d := doy - (153 * mp + 2) / 5 + 1
  let m := if mp < 10 then mp + 3 else mp - 9
  (y + (if m ≤ 2 then 1 else 0), m, d)

/-- A JavaScript `Date` as observed through `getFullYear`/`getMonth`/`getDate`
(month is 1-12 here, i.e. `getMonth() + 1`) plus the milliseconds elapsed in
the day. -/
structure JsDate where
  year : Int
  month : Int
  day : Int
  msOfDay : Int
deriving DecidableEq

/-- ECMAScript `date.setDate(n)`: the date becomes day `n` of the current
month with overflow normalised; the resulting epoch day is
`MakeDay(year, month, n) = dayOfFirstOfMonth + n - 1`. -/
def jsSetDateEpochDay (t : JsDate) (n : Int) : Int :=
  daysFromCivil t.year t.month 1 + n - 1

/-- Epoch day of the date produced by
`date.setDate(date.getDate() + days)` in `getExpirationDate`. -/
def getExpirationDateDay (days : Int) (now : JsDate) : Int :=
  jsSetDateEpochDay now (now.day + days)

def pad2 (n : Int) : String :=
  (if n < 10 then "0" else "") ++ toString n

def pad3 (n : Int) : String :=
  (if n < 10 then "00" else if n < 100 then "0" else "") ++ toString n

def pad4 (n : Int) : String :=
  (if n < 10 then "000" else if n < 100 then "00" else if n < 1000 then "0" else "")
    ++ toString n

/-- Embedding of `Date.prototype.toISOString` (UTC) for a date given as epoch
day plus milliseconds within the day. -/
def isoOfDayMs (day ms : Int) : String :=
  let c := civilFromDays day
  pad4 c.1 ++ "-" ++ pad2 c.2.1 ++ "-" ++ pad2 c.2.2 ++ "T" ++
    pad2 (ms / 3600000) ++ ":" ++ pad2 (ms % 3600000 / 60000) ++ ":" ++
    pad2 (ms % 60000 / 1000) ++ "." ++ pad3 (ms % 1000) ++ "Z"

/-- Embedding of `getExpirationDate(days)` (src/index.js lines 33-37):
take the current date, `setDate(getDate() + days)`, return `toISOString()`.
The source's default argument is 30; every call site passes 365. -/
def getExpirationDate (days : Int) (now : JsDate) : String :=
  isoOfDayMs (getExpirationDateDay days now) now.msOfDay

/-! ## Local store (`node-localstorage`) -/

/-- The on-disk key-value store; `setItem` shadows earlier bindings. -/
def Store := List (String × String)

def storeGet (s : Store) (k : String) : Option String :=
  (s.find? (fun kv => kv.1 == k)).map (fun kv => kv.2)

def storeSet (s : Store) (k v : String) : Store :=
  (k, v) :: s

def emptyStore : Store := []

/-! ## Startup (`app.listen` callback, src/index.js lines 244-252) -/

inductive StartupAction
  | invokeInitialize
  | logAlreadyRegistered
  | logServerRunning
deriving DecidableEq

/-- Embedding of the `app.listen` callback: if the `registered` flag is not
`"true"`, call `initialize()`; otherwise log; then log the port banner. -/
def listenCallback (s : Store) : List StartupAction :=
  if storeGet s "registered" != some "true" then
    [StartupAction.invokeInitialize, StartupAction.logServerRunning]
  else
    [StartupAction.logAlreadyRegistered, StartupAction.logServerRunning]

/-- How many times the startup path invokes the Bootstrap routine. -/
def initializeInvocations (s : Store) : Nat :=
  (listenCallback s).count StartupAction.invokeInitialize

/-! ## JavaScript values, thrown errors and identifier lookup -/

/-- Thrown JavaScript exceptions distinguished by the claims. -/
inductive JsErr
  | referenceError (name : String)
  | typeError (msg : String)
  | sdkError (msg : String)
deriving DecidableEq

/-- JavaScript values as far as the routes observe them. `extRef` is an
opaque host/SDK object (a function, a record handle, a bearer DID, ...);
`errObj` is a caught `Error` object returned as data. -/
inductive JsVal
  | undef
  | null
  | str (s : String)
  | num (n : Int)
  | boolean (b : Bool)
  | arr (elems : List JsVal)
  | obj (fields : List (String × JsVal))
  | errObj (e : JsErr)
  | extRef (tag : String)

def JsVal.isObj : JsVal → Bool
  | .obj _ => true
  | _ => false

def JsVal.isErrObj : JsVal → Bool
  | .errObj _ => true
  | _ => false

/-- Identifier resolution: the value bound in the innermost scope, or a thrown
`ReferenceError` when no enclosing scope declares the name (the file is
CommonJS, non-strict, but reading an undeclared identifier still throws). -/
def lookupIdent (scope : List (String × JsVal)) (name : String) : Except JsErr JsVal :=
  match scope.find? (fun b => b.1 == name) with
  | some b => Except.ok b.2
  | none => Except.error (JsErr.referenceError name)

/-- The names (with opaque values) visible in module scope of src/index.js:
the five `require`-derived bindings and consts (lines 1-15), the five declared
functions, and the host globals the file touches. None of them is `record`. -/
def moduleScope : List (String × JsVal) :=
  [("require", .extRef "require"), ("express", .extRef "express"),
   ("cors", .extRef "cors"), ("Web5", .extRef "Web5"),
   ("LocalStorage", .extRef "LocalStorage"), ("app", .extRef "app"),
   ("PORT", .extRef "PORT"), ("localStorage", .extRef "localStorage"),
   ("removeCircularReferences", .extRef "removeCircularReferences"),
   ("getExpirationDate", .extRef "getExpirationDate"),
   ("initialize", .extRef "initialize"),
   ("issueAndSignCredential", .extRef "issueAndSignCredential"),
   ("getRecord", .extRef "getRecord"), ("getPermission", .extRef "getPermission"),
   ("console", .extRef "console"), ("fetch", .extRef "fetch"),
   ("JSON", .extRef "JSON"), ("Date", .extRef "Date"),
   ("process", .extRef "process"), ("WeakSet", .extRef "WeakSet")]

/-- JavaScript array indexing `xs[i]`: `undefined` off the end or at a
negative index (as in `records[records.length - 1]` on an empty list). -/
def jsIndex (xs : List JsVal) (i : Int) : JsVal :=
  if 0 ≤ i then xs.getD i.toNat JsVal.undef else JsVal.undef

/-! ## Record Query routine (`getRecord`, src/index.js lines 177-203) -/

/-- Outcomes of the external calls `getRecord` performs, in call order:
`Web5.connect()` and `web5.dwn.records.query({...})`. -/
structure RecordQueryEnv where
  connect : Except JsErr JsVal
  queryRecords : Except JsErr (List JsVal)

/-- The scope inside `getRecord`'s `try` block at the `return` statement:
the parameter `custDid` and the destructured `web5` and `records`, over module
scope. No binding named `record` exists anywhere in the chain. -/
def getRecordScope (custDid : String) (web5 : JsVal) (records : List JsVal) :
    List (String × JsVal) :=
  ("custDid", JsVal.str custDid) :: ("web5", web5) ::
    ("records", JsVal.arr records) :: moduleScope

/-- The `try` block of `getRecord`: connect, query, then evaluate the object
literal `{ record: records[records.length - 1], content: record }` — whose
second property reads the undeclared identifier `record`. -/
def getRecordTry (env : RecordQueryEnv) (custDid : String) : Except JsErr JsVal := do
  let web5 ← env.connect
  let records ← env.queryRecords
  let recField := jsIndex records ((records.length : Int) - 1)
  let content ← lookupIdent (getRecordScope custDid web5 records) "record"
  pure (JsVal.obj [("record", recField), ("content", content)])

/-- Embedding of `getRecord`: `catch (e) { return e }` turns any thrown error
into the function's result. -/
def getRecord (env : RecordQueryEnv) (custDid : String) : JsVal :=
  match getRecordTry env custDid with
  | Except.ok v => v
  | Except.error e => JsVal.errObj e

/-- The error `getRecord` ends up returning: the connect/query SDK error if
one is thrown, otherwise the `ReferenceError` from the undeclared `record`. -/
def getRecordError (env : RecordQueryEnv) : JsErr :=
  match env.connect with
  | Except.error e => e
  | Except.ok _ =>
    match env.queryRecords with
    | Except.error e => e
    | Except.ok _ => JsErr.referenceError "record"

/-- A concrete environment in which the DWN query succeeds with one record. -/
def recordQueryEnvOk : RecordQueryEnv :=
  { connect := Except.ok (JsVal.extRef "web5"),
    queryRecords := Except.ok [JsVal.extRef "rec0"] }

/-! ## HTTP route `POST /` (src/index.js lines 218-222) -/

/-- An HTTP response as Express produces it: `res.send(body)` with the
default status 200 unless set otherwise. -/
structure HttpResponse where
  status : Nat
  body : JsVal

/-- Embedding of `app.post("/")`: read `custDid` from the body, await
`getRecord`, `res.send` the result unchanged. -/
def postRootRoute (env : RecordQueryEnv) (custDid : String) : HttpResponse :=
  { status := 200, body := getRecord env custDid }

/-- A concrete environment whose DWN query throws. -/
def recordQueryEnvFail : RecordQueryEnv :=
  { connect := Except.ok (JsVal.extRef "web5"),
    queryRecords := Except.error (JsErr.sdkError "query failed") }

/-! ## Credential Issuance routine (`issueAndSignCredential`, lines 101-174) -/

/-- The argument record passed to `VerifiableCredential.create` (the SDK
packages these fields into the credential; modelled field-preservingly). -/
structure VCArgs where
  issuer : Option String
  subject : String
  expirationDate : String
  countryOfResidence : String
  tier : String
  jurisdictionCountry : String
  schemaId : String
  schemaType : String
  evidence : List (String × List String)
deriving DecidableEq

structure CreateMessage where
  protocol : String
  protocolPath : String
  schema : String
  recipient : String
  dataFormat : String
  protocolRole : String
deriving DecidableEq

/-- Arguments of `web5.dwn.records.create`; `data` is the signed JWT. -/
structure CreateArgs where
  data : String
  store : Bool
  message : CreateMessage
deriving DecidableEq

structure QueryFilter where
  dataFormat : String
  author : Option String
deriving DecidableEq

/-- Arguments of `web5.dwn.records.query` (`from` is a keyword in Lean). -/
structure QueryArgs where
  fromDid : String
  filter : QueryFilter
deriving DecidableEq

/-- Outcomes of the external calls `issueAndSignCredential` performs, in call
order, each a function of the arguments the source passes at that site. -/
structure IssueEnv where
  now : JsDate
  vcCreate : VCArgs → Except JsErr Unit
  connect : Except JsErr Unit
  identityGet : Option String → Except JsErr JsVal
  sign : VCArgs → JsVal → Except JsErr String
  recordsCreate : CreateArgs → Except JsErr JsVal
  recordSend : JsVal → String → Except JsErr JsVal
  recordsQuery : QueryArgs → Except JsErr (List JsVal)

/-- The object `issueAndSignCredential` returns on success. -/
structure IssueResult where
  status : JsVal
  record : JsVal
  id : JsVal
  KCC : String

/-- The `VerifiableCredential.create` argument object as built in the source:
issuer read from the store's `didURI`, the fixed claims payload, schema
reference and evidence list, and expiration `getExpirationDate(365)`. -/
def issueVCArgs (store : Store) (custDid : String) (now : JsDate) : VCArgs :=
  { issuer := storeGet store "didURI"
    subject := custDid
    expirationDate := getExpirationDate 365 now
    countryOfResidence := "KE"
    tier := "Bonafide Customer Tier"
    jurisdictionCountry := "KE"
    schemaId := "https://vc.schemas.host/kcc.schema.json"
    schemaType := "JsonSchema"
    evidence := [("document_verification", ["passport", "utility_bill"]),
                 ("sanction_screening", ["PEP"])] }

/-- The `records.create` argument object: the signed credential as data,
`store: false`, fixed protocol/path/schema/format, recipient = customer DID,
`protocolRole: "issuer"`. -/
def issueCreateArgs (signedVc : String) (custDid : String) : CreateArgs :=
  { data := signedVc
    store := false
    message :=
      { protocol := "https://vc-to-dwn.tbddev.org/vc-protocol"
        protocolPath := "credential"
        schema := "https://vc-to-dwn.tbddev.org/vc-protocol/schema/credential"
        recipient := custDid
        dataFormat := "application/vc+jwt"
        protocolRole := "issuer" } }

/-- The `records.query` argument object: from the customer's DWN, filtered by
the fixed data format and the issuer (store `didURI`) as author. -/
def issueQueryArgs (store : Store) (custDid : String) : QueryArgs :=
  { fromDid := custDid
    filter := { dataFormat := "application/vc+jwt",
                author := storeGet store "didURI" } }

/-- The `try` block of `issueAndSignCredential`, in source order: create the
credential, connect, fetch the bearer identity by the stored `didURI`, sign,
create the DWN record, send it to the customer, query the customer's DWN, and
return `{ status, record, id: records[records.length-1], KCC: signed_vc }`. -/
def issueTry (env : IssueEnv) (store : Store) (custDid : String) :
    Except JsErr IssueResult := do
  let vcArgs := issueVCArgs store custDid env.now
  let _ ← env.vcCreate vcArgs
  let _ ← env.connect
  let bearer ← env.identityGet (storeGet store "didURI")
  let signedVc ← env.sign vcArgs bearer
  let record ← env.recordsCreate (issueCreateArgs signedVc custDid)
  let status ← env.recordSend record custDid
  let records ← env.recordsQuery (issueQueryArgs store custDid)
  pure { status := status, record := record,
         id := jsIndex records ((records.length : Int) - 1), KCC := signedVc }

/-- Embedding of `issueAndSignCredential`: the `catch` logs the error and
falls off the end, so the promise resolves to `undefined` (`none`). -/
def issueAndSignCredential (env : IssueEnv) (store : Store) (custDid : String) :
    Option IssueResult :=
  (issueTry env store custDid).toOption

/-- A store holding the issuer DID, as after a successful Bootstrap. -/
def storeWithDid : Store := storeSet emptyStore "didURI" "did:dht:issuer"

/-- A concrete all-success environment for the issuance routine. -/
def issueEnvOk : IssueEnv :=
  { now := ⟨2023, 3, 1, 0⟩
    vcCreate := fun _ => Except.ok ()
    connect := Except.ok ()
    identityGet := fun _ => Except.ok (JsVal.extRef "bearer")
    sign := fun _ _ => Except.ok "signed.vc.jwt"
    recordsCreate := fun _ => Except.ok (JsVal.extRef "recordHandle")
    recordSend := fun _ _ => Except.ok (JsVal.num 202)
    recordsQuery := fun _ => Except.ok [JsVal.extRef "q0", JsVal.extRef "q1"] }

/-! ## Permission check (`getPermission`, lines 206-215, and its routes) -/

/-- Outcome of `fetch(authURL)` followed by `response.json()`, folded into a
single oracle: the parsed gateway JSON, or a thrown network/parse error. -/
structure PermissionEnv where
  response : Except JsErr JsVal

/-- Embedding of `getPermission`: return the parsed gateway JSON; any thrown
error is caught, logged, and the function resolves to `undefined`. -/
def getPermission (penv : PermissionEnv) : JsVal :=
  match penv.response with
  | Except.ok data => data
  | Except.error _ => JsVal.undef

/-- Embedding of `app.post("/get-permission")` (lines 237-241): respond with
the gateway JSON, then unconditionally set the `permission` flag `"true"`. -/
def postGetPermissionRoute (penv : PermissionEnv) (store : Store) :
    HttpResponse × Store :=
  ({ status := 200, body := getPermission penv },
   storeSet store "permission" "true")

/-- The permission block at the top of `app.post("/get-credential")`
(lines 227-231): if the local flag is not `"true"`, await `getPermission()`
(which never rejects) and then set the flag `"true"`. Returns the updated
store and whether the check was invoked. -/
def credPermissionBlock (penv : PermissionEnv) (store : Store) : Store × Bool :=
  if storeGet store "permission" != some "true" then
    let _ := getPermission penv
    (storeSet store "permission" "true", true)
  else (store, false)

/-- A gateway response that contains an explicit denial field. -/
def permissionEnvDenied : PermissionEnv :=
  { response := Except.ok (JsVal.obj [("status", JsVal.str "denied")]) }

/-! ## HTTP route `POST /get-credential` (src/index.js lines 224-235) -/

/-- JavaScript `x ?? ""`: nullish coalescing to the empty string. -/
def jsCoalesceEmpty (v : JsVal) : JsVal :=
  match v with
  | JsVal.undef => JsVal.str ""
  | JsVal.null => JsVal.str ""
  | v => v

/-- Embedding of `app.post("/get-credential")`: run the permission block,
await `issueAndSignCredential`, then build the JSON response
`{ status: data.status ?? "", record: data.record ?? "", id: data.id ?? "",
KCC: data.KCC ?? "" }`. When the routine resolved to `undefined`, the member
access `data.status` throws a `TypeError`; the async handler has no catch, so
the rejection escapes and no response is produced (`Except.error`). -/
def getCredentialRoute (env : IssueEnv) (penv : PermissionEnv) (store : Store)
    (custDid : String) : Except JsErr (HttpResponse × Store) :=
  let store1 := (credPermissionBlock penv store).1
  match issueAndSignCredential env store1 custDid with
  | none =>
    Except.error
      (JsErr.typeError "Cannot read properties of undefined (reading 'status')")
  | some data =>
    Except.ok
      ({ status := 200,
         body := JsVal.obj
           [("status", jsCoalesceEmpty data.status),
            ("record", jsCoalesceEmpty data.record),
            ("id", jsCoalesceEmpty data.id),
            ("KCC", jsCoalesceEmpty (JsVal.str data.KCC))] }, store1)

/-- An issuance environment whose signing step throws. -/
def issueEnvFail : IssueEnv :=
  { issueEnvOk with sign := fun _ _ => Except.error (JsErr.sdkError "sign failed") }

/-- The all-empty-string response body claim C1 predicts on failure. -/
def emptyCredentialBody : JsVal :=
  JsVal.obj [("status", JsVal.str ""), ("record", JsVal.str ""),
             ("id", JsVal.str ""), ("KCC", JsVal.str "")]

/-! ## Cycle-breaking serializer (`removeCircularReferences`, lines 19-30)

The replacer closes over a `WeakSet` `seen`; for every (key, value) pair the
traversal visits (the root included), an object value already in `seen` is
replaced by `undefined` — for an object property that means the key is simply
absent from the output — and an unseen object value is added to `seen` and
recursed into. We model the object graph as a heap of addressed objects
(`SHeap`), the traversal producing directly the tree that
`JSON.parse(JSON.stringify(v, removeCircularReferences()))` yields, with
`seen` as an explicit list of visited addresses threaded left-to-right
through the properties (the single `WeakSet` persists across siblings, which
is what drops repeated non-cyclic references). `fuel` bounds the expansion
depth; any fuel larger than the number of distinct reachable addresses is
never exhausted, and the graph claims are stated at such fuels. -/

/-- A serializable JavaScript value: a primitive or a reference into the
object heap. -/
inductive SVal
  | prim (s : String)
  | ref (a : Nat)

/-- The object heap: each address holds its ordered own-property list. -/
def SHeap := Nat → List (String × SVal)

/-- The JSON tree that parsing the serializer's output yields. -/
inductive JTree
  | prim (s : String)
  | obj (fields : List (String × JTree))

/-- Serialize a property list left to right, threading the `seen` set through
`f` (the value serializer): a property whose value serializes to `undefined`
(`none`) is dropped. Returns the kept fields, the final `seen` list, and the
addresses expanded (in first-visit order). -/
def serializeFieldsWith
    (f : SVal → List Nat → Option JTree × List Nat × List Nat) :
    List (String × SVal) → List Nat →
      List (String × JTree) × List Nat × List Nat
  | [], seen => ([], seen, [])
  | (k, v) :: rest, seen =>
    let r1 := f v seen
    let r2 := serializeFieldsWith f rest r1.2.1
    ((match r1.1 with
      | none => r2.1
      | some t => (k, t) :: r2.1), r2.2.1, r1.2.2 ++ r2.2.2)

/-- Serialize one value under the replacer: a primitive is kept; a reference
already in `seen` becomes `undefined` (`none`, i.e. the key is dropped); an
unseen reference is added to `seen` and its properties are serialized. -/
def serializeVal (fuel : Nat) : SHeap → SVal → List Nat →
    Option JTree × List Nat × List Nat :=
  match fuel with
  | 0 => fun _ v seen =>
    match v with
    | SVal.prim s => (some (JTree.prim s), seen, [])
    | SVal.ref _ => (none, seen, [])
  | fuel + 1 => fun h v seen =>
    match v with
    | SVal.prim s => (some (JTree.prim s), seen, [])
    | SVal.ref a =>
      if a ∈ seen then (none, seen, [])
      else
        let r := serializeFieldsWith (serializeVal fuel h) (h a) (a :: seen)
        (some (JTree.obj r.1), r.2.1, a :: r.2.2)

/-- Embedding of the whole round trip
`JSON.parse(JSON.stringify(v, removeCircularReferences()))` on the graph
rooted at `v` in heap `h`. -/
def removeCircularReferencesRoundTrip (fuel : Nat) (h : SHeap) (v : SVal) :
    Option JTree :=
  (serializeVal fuel h v []).1

/-- Invariant of the serializer state: `seen` only grows, and the expanded
addresses are fresh, pairwise distinct, and all recorded in the final seen
list. -/
def SerInv {α : Type} (res : List Nat → α × List Nat × List Nat) : Prop :=
  ∀ seen : List Nat,
    (∀ x ∈ seen, x ∈ (res seen).2.1) ∧
    (res seen).2.2.Nodup ∧
    (∀ x ∈ (res seen).2.2, x ∉ seen ∧ x ∈ (res seen).2.1)

/-- A one-object graph with a self-loop: `a = {}; a.self = a; a.x = "1"`. -/
def cycHeap : SHeap := fun a =>
  if a = 0 then [("self", SVal.ref 0), ("x", SVal.prim "1")] else []

/-- A non-cyclic graph with two properties sharing one nested object:
`b = {v: "7"}; root = {x: b, y: b}`. -/
def sharedHeap : SHeap := fun a =>
  if a = 0 then [("x", SVal.ref 1), ("y", SVal.ref 1)]
  else if a = 1 then [("v", SVal.prim "7")] else []

/-! ## Theorems -/

/-- The day-of-month argument enters `daysFromCivil` linearly. -/
theorem daysFromCivil_day_add (y m d k : Int) :
    daysFromCivil y m (d + k) = daysFromCivil y m d + k := by
  unfold daysFromCivil
  ring

theorem storeGet_storeSet_same (s : Store) (k v : String) :
    storeGet (storeSet s k v) k = some v := by
  simp [storeGet, storeSet, List.find?]

/-- Claim C7: at process start, `initialize` is invoked iff the store's
`registered` key does not hold `"true"`; on first start with an empty store it
is invoked exactly once, and on restart with `registered="true"` it is not
invoked. -/
theorem C7_bootstrap_invoked_iff_unregistered :
    (∀ s : Store,
      initializeInvocations s =
        if storeGet s "registered" == some "true" then 0 else 1) ∧
    initializeInvocations emptyStore = 1 ∧
    initializeInvocations (storeSet emptyStore "registered" "true") = 0 := by
  refine ⟨fun s => ?_, by rfl, by rfl⟩
  by_cases h : storeGet s "registered" = some "true" <;>
    simp [initializeInvocations, listenCallback, h, List.count]

/-- Claim C5: `getExpirationDate(365)` returns the ISO-8601 timestamp exactly
365 calendar days after the invocation time: the epoch day of the result is
the epoch day of `now` plus 365 for every civil date (so day arithmetic is
calendar arithmetic, normalising month/year overflow), the time of day is
preserved, and leap-day grounding: Feb 29 2024 is a real calendar day one day
after Feb 28 2024, and 365 days from 2023-03-01 lands on 2024-02-29 (not on
2024-03-01 as fixed 365×86400-second arithmetic in a 366-day span would only
coincidentally match). -/
theorem C5_getExpirationDate_365_calendar_days :
    (∀ now : JsDate,
      getExpirationDateDay 365 now =
        daysFromCivil now.year now.month now.day + 365 ∧
      getExpirationDate 365 now =
        isoOfDayMs (daysFromCivil now.year now.month now.day + 365) now.msOfDay) ∧
    daysFromCivil 2024 2 29 = daysFromCivil 2024 2 28 + 1 ∧
    daysFromCivil 2023 3 1 + 365 = daysFromCivil 2024 2 29 ∧
    getExpirationDate 365 ⟨2023, 3, 1, 0⟩ = "2024-02-29T00:00:00.000Z" := by
  have key : ∀ now : JsDate,
      getExpirationDateDay 365 now =
        daysFromCivil now.year now.month now.day + 365 := by
    intro now
    have h := daysFromCivil_day_add now.year now.month 1 (now.day + 365 - 1)
    unfold getExpirationDateDay jsSetDateEpochDay
    unfold daysFromCivil at h ⊢
    ring
  refine ⟨fun now => ⟨key now, ?_⟩, by decide, by decide, by rfl⟩
  unfold getExpirationDate
  rw [key now]

/-- Claim C9: whenever the DWN query succeeds, evaluating `content` reads the
undeclared identifier `record` and throws a `ReferenceError`, which the
`catch` converts into the result: `getRecord` always returns a caught error
object (the SDK error or the `ReferenceError`), never the
`{ record, content }` shape. -/
theorem C9_getRecord_always_returns_caught_error
    (env : RecordQueryEnv) (custDid : String) :
    getRecord env custDid = JsVal.errObj (getRecordError env) ∧
    (getRecord env custDid).isObj = false ∧
    (getRecord env custDid).isErrObj = true := by
  have h : getRecord env custDid = JsVal.errObj (getRecordError env) := by
    unfold getRecord getRecordTry getRecordError
    cases env.connect with
    | error e => rfl
    | ok web5 =>
      cases env.queryRecords with
      | error e => rfl
      | ok records => rfl
  exact ⟨h, by rw [h]; rfl, by rw [h]; rfl⟩

/-- Claim C2, counterexample: in a concrete environment whose DWN query
succeeds with one record, `getRecord` does not return an object of the shape
`{ record: records[last], content: ... }` at all — it returns the caught
`ReferenceError` for the undeclared identifier `record`. -/
theorem C2_counterexample_getRecord_not_object :
    getRecord recordQueryEnvOk "did:example:cust" =
      JsVal.errObj (JsErr.referenceError "record") ∧
    (getRecord recordQueryEnvOk "did:example:cust").isObj = false := by
  exact ⟨rfl, rfl⟩

/-- Claim C2 (amended): for every call with a customer DID whose DWN query
succeeds, evaluating the `content` property of the object literal
`{ record: records[last], content: record }` reads the out-of-scope
identifier `record` and throws a `ReferenceError`; the `catch` returns that
error, so the routine yields the caught `ReferenceError` object rather than
the `{ record, content }` object. -/
theorem C2_getRecord_content_reference_error
    (env : RecordQueryEnv) (custDid : String) (web5 : JsVal) (rs : List JsVal)
    (hc : env.connect = Except.ok web5)
    (hq : env.queryRecords = Except.ok rs) :
    getRecord env custDid = JsVal.errObj (JsErr.referenceError "record") := by
  unfold getRecord getRecordTry
  rw [hc, hq]
  rfl

/-- Witness for C2's amended theorem at the concrete environment. -/
theorem C2_getRecord_content_reference_error_witness :
    getRecord recordQueryEnvOk "did:example:cust" =
      JsVal.errObj (JsErr.referenceError "record") :=
  C2_getRecord_content_reference_error recordQueryEnvOk "did:example:cust"
    (JsVal.extRef "web5") [JsVal.extRef "rec0"] rfl rfl

/-- Claim C8: `POST /` responds with exactly what the Record Query routine
returns — including a raw caught error object when the internal call fails —
always with HTTP status 200, no status-code translation. -/
theorem C8_post_root_forwards_getRecord_verbatim
    (env : RecordQueryEnv) (custDid : String) :
    (postRootRoute env custDid).body = getRecord env custDid ∧
    (postRootRoute env custDid).status = 200 ∧
    (postRootRoute recordQueryEnvFail custDid).body =
      JsVal.errObj (JsErr.sdkError "query failed") ∧
    (postRootRoute recordQueryEnvFail custDid).status = 200 := by
  exact ⟨rfl, rfl, rfl, rfl⟩

/-- Claim C4: when every downstream SDK call succeeds, the routine returns
the object whose `status` is the outcome of sending the created record to the
customer, whose `record` is the created handle (created with `store: false`,
recipient the customer, role `issuer`), whose `id` is the last entry of the
query filtered by the fixed data format and the issuer author, and whose
`KCC` is the signed credential of the argument object whose expiration is
now + 365 calendar days. -/
theorem C4_issueAndSignCredential_success_shape
    (env : IssueEnv) (store : Store) (custDid : String) (bearer : JsVal)
    (signedVc : String) (recHandle sendStatus : JsVal) (ql : List JsVal)
    (hvc : env.vcCreate (issueVCArgs store custDid env.now) = Except.ok ())
    (hco : env.connect = Except.ok ())
    (hid : env.identityGet (storeGet store "didURI") = Except.ok bearer)
    (hsg : env.sign (issueVCArgs store custDid env.now) bearer = Except.ok signedVc)
    (hcr : env.recordsCreate (issueCreateArgs signedVc custDid) = Except.ok recHandle)
    (hsd : env.recordSend recHandle custDid = Except.ok sendStatus)
    (hqu : env.recordsQuery (issueQueryArgs store custDid) = Except.ok ql) :
    issueAndSignCredential env store custDid =
      some { status := sendStatus, record := recHandle,
             id := jsIndex ql ((ql.length : Int) - 1), KCC := signedVc } ∧
    (issueCreateArgs signedVc custDid).store = false ∧
    (issueCreateArgs signedVc custDid).message.recipient = custDid ∧
    (issueCreateArgs signedVc custDid).message.protocolRole = "issuer" ∧
    (issueQueryArgs store custDid).filter =
      { dataFormat := "application/vc+jwt", author := storeGet store "didURI" } ∧
    (issueVCArgs store custDid env.now).expirationDate = getExpirationDate 365 env.now ∧
    getExpirationDateDay 365 env.now =
      daysFromCivil env.now.year env.now.month env.now.day + 365 := by
  refine ⟨?_, rfl, rfl, rfl, rfl, rfl, ?_⟩
  · simp [issueAndSignCredential, issueTry, bind, Except.bind, Except.toOption,
      pure, Except.pure, hvc, hco, hid, hsg, hcr, hsd, hqu]
  · have h := daysFromCivil_day_add env.now.year env.now.month 1 (env.now.day + 365 - 1)
    unfold getExpirationDateDay jsSetDateEpochDay
    unfold daysFromCivil at h ⊢
    ring

/-- Witness for C4 at the concrete all-success environment. -/
theorem C4_issueAndSignCredential_success_shape_witness :
    issueAndSignCredential issueEnvOk storeWithDid "did:example:cust" =
      some { status := JsVal.num 202, record := JsVal.extRef "recordHandle",
             id := jsIndex [JsVal.extRef "q0", JsVal.extRef "q1"] 1,
             KCC := "signed.vc.jwt" } ∧
    (issueCreateArgs "signed.vc.jwt" "did:example:cust").store = false ∧
    (issueCreateArgs "signed.vc.jwt" "did:example:cust").message.recipient =
      "did:example:cust" ∧
    (issueCreateArgs "signed.vc.jwt" "did:example:cust").message.protocolRole =
      "issuer" ∧
    (issueQueryArgs storeWithDid "did:example:cust").filter =
      { dataFormat := "application/vc+jwt",
        author := storeGet storeWithDid "didURI" } ∧
    (issueVCArgs storeWithDid "did:example:cust" issueEnvOk.now).expirationDate =
      getExpirationDate 365 issueEnvOk.now ∧
    getExpirationDateDay 365 issueEnvOk.now =
      daysFromCivil issueEnvOk.now.year issueEnvOk.now.month issueEnvOk.now.day
        + 365 :=
  C4_issueAndSignCredential_success_shape issueEnvOk storeWithDid
    "did:example:cust" (JsVal.extRef "bearer") "signed.vc.jwt"
    (JsVal.extRef "recordHandle") (JsVal.num 202)
    [JsVal.extRef "q0", JsVal.extRef "q1"] rfl rfl rfl rfl rfl rfl rfl

/-- Claim C3: after `POST /get-permission` the local `permission` key holds
`"true"` whatever the gateway returned (the response body being the gateway
JSON verbatim, including a denial), and on `POST /get-credential` the check
runs exactly when the flag is not already `"true"` and the flag afterwards
always holds `"true"` — a denial is indistinguishable from approval. -/
theorem C3_permission_flag_set_unconditionally
    (penv : PermissionEnv) (store : Store) :
    storeGet (postGetPermissionRoute penv store).2 "permission" = some "true" ∧
    (postGetPermissionRoute penv store).1.body = getPermission penv ∧
    storeGet (credPermissionBlock penv store).1 "permission" = some "true" ∧
    (credPermissionBlock penv store).2 =
      (storeGet store "permission" != some "true") ∧
    storeGet (postGetPermissionRoute permissionEnvDenied emptyStore).2
      "permission" = some "true" := by
  refine ⟨storeGet_storeSet_same store "permission" "true", rfl, ?_, ?_, rfl⟩
  · unfold credPermissionBlock
    by_cases h : storeGet store "permission" = some "true" <;>
      simp [h, storeGet_storeSet_same]
  · unfold credPermissionBlock
    by_cases h : storeGet store "permission" = some "true" <;> simp [h]

/-- Claim C1, evaluation at the failing input: with a gateway that approves
and an issuance environment whose signing call throws, the
`/get-credential` handler does not respond with HTTP 200 and all-empty-string
fields — the member access `data.status` on the `undefined` result throws a
`TypeError` and no response at all is produced. -/
theorem C1_get_credential_failure_throws_typeerror :
    getCredentialRoute issueEnvFail permissionEnvDenied emptyStore
      "did:example:cust" =
      Except.error
        (JsErr.typeError "Cannot read properties of undefined (reading 'status')") ∧
    ∀ st : Store,
      getCredentialRoute issueEnvFail permissionEnvDenied emptyStore
        "did:example:cust" ≠
        Except.ok ({ status := 200, body := emptyCredentialBody }, st) := by
  refine ⟨rfl, fun st h => ?_⟩
  exact Except.noConfusion h

/-- Claim C10: whenever `issueAndSignCredential` takes its exception path and
resolves to `undefined`, the `/get-credential` handler dereferences
`data.status` without a guard and throws a `TypeError`; the empty-string
fallback response is never produced on that path. -/
theorem C10_get_credential_undefined_dereference
    (env : IssueEnv) (penv : PermissionEnv) (store : Store) (custDid : String)
    (hfail : issueAndSignCredential env (credPermissionBlock penv store).1
      custDid = none) :
    getCredentialRoute env penv store custDid =
      Except.error
        (JsErr.typeError "Cannot read properties of undefined (reading 'status')") := by
  unfold getCredentialRoute
  dsimp only
  rw [hfail]

/-- Witness for C10 at the concrete failing environment. -/
theorem C10_get_credential_undefined_dereference_witness :
    getCredentialRoute issueEnvFail permissionEnvDenied emptyStore
      "did:example:cust" =
      Except.error
        (JsErr.typeError "Cannot read properties of undefined (reading 'status')") :=
  C10_get_credential_undefined_dereference issueEnvFail permissionEnvDenied
    emptyStore "did:example:cust" rfl

theorem serializeFieldsWith_inv
    (f : SVal → List Nat → Option JTree × List Nat × List Nat)
    (hf : ∀ v, SerInv (f v)) :
    ∀ l : List (String × SVal), SerInv (serializeFieldsWith f l) := by
  intro l
  induction l with
  | nil =>
    intro seen
    exact ⟨fun x hx => hx, List.nodup_nil,
      fun x hx => absurd hx (List.not_mem_nil x)⟩
  | cons kv rest ih =>
    obtain ⟨k, v⟩ := kv
    intro seen
    obtain ⟨A1, B1, C1⟩ := hf v seen
    obtain ⟨A2, B2, C2⟩ := ih (f v seen).2.1
    refine ⟨?_, ?_, ?_⟩
    · intro x hx
      exact A2 x (A1 x hx)
    · show ((f v seen).2.2 ++ _).Nodup
      refine List.Nodup.append B1 B2 ?_
      intro x hx1 hx2
      exact (C2 x hx2).1 ((C1 x hx1).2)
    · intro x hx
      rcases List.mem_append.mp hx with hx1 | hx2
      · exact ⟨(C1 x hx1).1, A2 x (C1 x hx1).2⟩
      · refine ⟨fun hxs => (C2 x hx2).1 (A1 x hxs), (C2 x hx2).2⟩

theorem serializeVal_inv (fuel : Nat) (h : SHeap) (v : SVal) :
    SerInv (serializeVal fuel h v) := by
  induction fuel generalizing v with
  | zero =>
    intro seen
    cases v <;> simp [serializeVal]
  | succ n ih =>
    intro seen
    cases v with
    | prim s => simp [serializeVal]
    | ref a =>
      by_cases ha : a ∈ seen
      · simp [serializeVal, ha]
      · have hfields :=
          serializeFieldsWith_inv (serializeVal n h) (fun w => ih w) (h a) (a :: seen)
        obtain ⟨AF, BF, CF⟩ := hfields
        simp only [serializeVal, ha, if_neg, ite_false]
        refine ⟨?_, ?_, ?_⟩
        · intro x hx
          exact AF x (List.mem_cons_of_mem a hx)
        · show (a :: _).Nodup
          refine List.nodup_cons.mpr ⟨?_, BF⟩
          intro hmem
          exact (CF a hmem).1 (List.mem_cons_self a _)
        · intro x hx
          rcases List.mem_cons.mp hx with rfl | hx2
          · exact ⟨ha, AF x (List.mem_cons_self x _)⟩
          · refine ⟨?_, (CF x hx2).2⟩
            intro hxs
            exact (CF x hx2).1 (List.mem_cons_of_mem a hxs)

/-- Claim C6: serializing with the `removeCircularReferences` replacer and
parsing back (i) turns the cyclic self-reference into absence of the key
(`{self: a, x: "1"}` becomes `{x: "1"}`); (ii) on a non-cyclic graph with two
properties sharing one object, also drops the second occurrence
(`{x: b, y: b}` becomes `{x: {v: "7"}}`); (iii) in general expands every
heap object at most once (first occurrence kept, repeats dropped); and
(iv) any property whose value is a reference already in `seen` contributes
no key and leaves the traversal state unchanged. -/
theorem C6_removeCircularReferences_roundtrip :
    removeCircularReferencesRoundTrip 2 cycHeap (SVal.ref 0) =
      some (JTree.obj [("x", JTree.prim "1")]) ∧
    removeCircularReferencesRoundTrip 3 sharedHeap (SVal.ref 0) =
      some (JTree.obj [("x", JTree.obj [("v", JTree.prim "7")])]) ∧
    (∀ (fuel : Nat) (h : SHeap) (v : SVal),
      ((serializeVal fuel h v []).2.2).Nodup) ∧
    (∀ (fuel : Nat) (h : SHeap) (k : String) (a : Nat)
        (rest : List (String × SVal)) (seen : List Nat), a ∈ seen →
      serializeFieldsWith (serializeVal fuel h) ((k, SVal.ref a) :: rest) seen =
        serializeFieldsWith (serializeVal fuel h) rest seen) := by
  refine ⟨rfl, rfl, ?_, ?_⟩
  · intro fuel h v
    exact (serializeVal_inv fuel h v []).2.1
  · intro fuel h k a rest seen ha
    have hstep : serializeVal fuel h (SVal.ref a) seen = (none, seen, []) := by
      cases fuel with
      | zero => rfl
      | succ n => simp [serializeVal, ha]
    show (let r1 := serializeVal fuel h (SVal.ref a) seen
          let r2 := serializeFieldsWith (serializeVal fuel h) rest r1.2.1
          ((match r1.1 with
            | none => r2.1
            | some t => (k, t) :: r2.1), r2.2.1, r1.2.2 ++ r2.2.2)) = _
    rw [hstep]
    rfl

/-- Witness for C6's universally quantified drop conjunct at a concrete
already-seen reference. -/
theorem C6_removeCircularReferences_roundtrip_witness :
    serializeFieldsWith (serializeVal 1 cycHeap)
        [("self", SVal.ref 0)] [0] =
      serializeFieldsWith (serializeVal 1 cycHeap) [] [0] :=
  C6_removeCircularReferences_roundtrip.2.2.2 1 cycHeap "self" 0 [] [0]
    (by decide)
